import Mathlib

/-!
Shallow embedding of `src/weather_datadog.py`: a service that polls the
OpenWeather API for temperature and humidity and republishes the two
values as Datadog gauge metrics on a fixed interval, until a shutdown
signal is observed.
-/

/-- JSON values, as produced by `response.json()`.  Numbers are modelled
as rationals; object fields are the entries of the resulting Python dict
(keys unique after parsing). -/
inductive Json where
  | null : Json
  | bool : Bool → Json
  | num : ℚ → Json
  | str : String → Json
  | arr : List Json → Json
  | obj : List (String × Json) → Json

/-- The Python exceptions the fetch path can produce:
`requestExc` stands for `requests.exceptions.RequestException` (network or
timeout failure, `HTTPError` from `raise_for_status`, and the JSON-decode
error raised by `response.json()`, all subclasses); `keyErr` for `KeyError`;
`typeErr` for `TypeError` (subscripting a non-dict value with a string key). -/
inductive PyExc where
  | requestExc : PyExc
  | keyErr : String → PyExc
  | typeErr : PyExc
deriving DecidableEq

/-- Lookup of a key among the fields of a parsed JSON object. -/
def lookupField : List (String × Json) → String → Option Json
  | [], _ => none
  | (k, v) :: rest, key => if k = key then some v else lookupField rest key

/-- Python `value[key]` with a string key: dict lookup raising `KeyError`
when the key is absent; every non-dict value raises `TypeError`. -/
def Json.index : Json → String → Except PyExc Json
  | .obj fields, key =>
      match lookupField fields key with
      | some v => .ok v
      | none => .error (.keyErr key)
  | _, _ => .error .typeErr

/-- Outcome of `requests.get`: a network or timeout failure (which raises a
`RequestException`), or an HTTP response carrying a status code and a body
(`none` when the body is not valid JSON, in which case `response.json()`
raises a `RequestException` subclass). -/
inductive HttpResult where
  | netError : HttpResult
  | response : Nat → Option Json → HttpResult

/-- `response.raise_for_status()`: raises `requests.HTTPError` (a
`RequestException`) exactly for error status codes, i.e. status ≥ 400. -/
def raise_for_status (status : Nat) : Except PyExc Unit :=
  if 400 ≤ status then .error .requestExc else .ok ()

/-- The dict `{"temperature": ..., "humidity": ...}` that
`get_weather_data` returns on success; the two values are the raw JSON
values extracted from the response body, with no type validation. -/
structure Reading where
  temperature : Json
  humidity : Json

/-- The body of the `try` block of `get_weather_data`, line by line:
perform the GET, `raise_for_status`, parse the body, then extract
`data["main"]["temp"]` and `data["main"]["humidity"]`. -/
def get_weather_try (resp : HttpResult) : Except PyExc Reading :=
  match resp with
  | .netError => .error .requestExc
  | .response status body => do
      let _ ← raise_for_status status
      match body with
      | none => .error .requestExc
      | some data => do
          let mainVal ← data.index "main"
          let temperature ← mainVal.index "temp"
          let humidity ← mainVal.index "humidity"
          .ok ⟨temperature, humidity⟩

/-- `get_weather_data`: the `try` block wrapped in the function's two
`except` clauses, which catch `requests.exceptions.RequestException` and
`KeyError` and return `None` for either.  `.ok (some r)` models returning
the reading dict, `.ok none` models returning `None`, and `.error e`
models an exception escaping the function uncaught. -/
def get_weather_data (resp : HttpResult) : Except PyExc (Option Reading) :=
  match get_weather_try resp with
  | .ok r => .ok (some r)
  | .error .requestExc => .ok none
  | .error (.keyErr _) => .ok none
  | .error .typeErr => .error .typeErr

/-- One call to `api.Metric.send`: a metric name, a list of
(timestamp, value) points — always a single pair here, with the timestamp
`int(time.time())` — and the type marker. -/
structure MetricSend where
  metric : String
  points : List (Nat × Json)
  type : String

/-- The outside world seen by `submit_datadog_metrics`: `timeAt n` is the
value of `int(time.time())` at the n-th call to `time.time()`, and
`sendOk n` tells whether the n-th `api.Metric.send` call returns normally
(`false` means it raises an exception). -/
structure DDEnv where
  timeAt : Nat → Nat
  sendOk : Nat → Bool

/-- `submit_datadog_metrics`: both `api.Metric.send` calls sit in a single
`try` block whose handler catches every `Exception` and only logs it, so
the function always returns.  The result is the list of send calls
actually made, in order: if the temperature send raises, control jumps to
the handler and the humidity send is never attempted. -/
def submit_datadog_metrics (temperature humidity : Json) (env : DDEnv) :
    List MetricSend :=
  let p1 : MetricSend :=
    ⟨"environment.temperature.outside", [(env.timeAt 0, temperature)], "gauge"⟩
  if env.sendOk 0 then
    let p2 : MetricSend :=
      ⟨"environment.humidity.outside", [(env.timeAt 1, humidity)], "gauge"⟩
    [p1, p2]
  else
    [p1]

/-- The inner loop of the inter-cycle wait:
`for _ in range(300): if shutdown_flag: break; time.sleep(1)`.
`flagAt n` is the value of `shutdown_flag` at the check made after `n`
completed one-second sleeps; `slept` counts the sleeps performed so far.
The result is the total number of one-second sleeps performed. -/
def sleepLoopGo (flagAt : Nat → Bool) : Nat → Nat → Nat
  | 0, slept => slept
  | n + 1, slept => if flagAt slept then slept else sleepLoopGo flagAt n (slept + 1)

/-- The whole wait between cycles: 300 iterations, each checking the
shutdown flag before sleeping one second. -/
def sleepSeconds (flagAt : Nat → Bool) : Nat :=
  sleepLoopGo flagAt 300 0

/-- Observable actions of one pass through the main loop body. -/
inductive Event where
  | fetchCall : Event
  | publishCall : Reading → Event
  | warnSkip : Event
  | sleptFor : Nat → Event

/-- What the loop body observes during cycle `i`: the shutdown flag at the
`while` test, the value `get_weather_data` returns, the flag at the
`if not shutdown_flag` guard before the wait, and the flag at each check
inside the wait. -/
structure CycleEnv where
  shutdownAtTop : Bool
  fetchResult : Option Reading
  preSleepFlag : Bool
  flagAt : Nat → Bool

/-- The fetch-then-publish-or-warn part of one cycle: `get_weather_data`
is called once; a truthy result is handed to `submit_datadog_metrics`,
a `None` result logs a warning and skips submission. -/
def cycleEvents : Option Reading → List Event
  | some r => [.fetchCall, .publishCall r]
  | none => [.fetchCall, .warnSkip]

/-- The guarded wait at the end of a cycle (skipped entirely when the
shutdown flag is already set at the guard). -/
def sleepEvents (c : CycleEnv) : List Event :=
  if c.preSleepFlag then [] else [.sleptFor (sleepSeconds c.flagAt)]

/-- The `while not shutdown_flag` loop of `main`, unrolled cycle by cycle:
`env i` gives cycle i's observations and `fuel` bounds the number of
cycles simulated (the real loop has no bound; runs that exhaust the fuel
end with an empty continuation). -/
def mainLoop (env : Nat → CycleEnv) : Nat → Nat → List Event
  | 0, _ => []
  | fuel + 1, i =>
      if (env i).shutdownAtTop then []
      else cycleEvents (env i).fetchResult ++ sleepEvents (env i)
        ++ mainLoop env fuel (i + 1)

/-- The `os.getenv` results for the four required variables
(`none` models an unset variable). -/
structure ProcEnv where
  openweather_api_key : Option String
  datadog_api_key : Option String
  datadog_app_key : Option String
  zip_code : Option String

/-- Python truthiness of an `os.getenv` result: `None` and the empty
string are both falsy, so `if not var` rejects both. -/
def truthy : Option String → Bool
  | none => false
  | some s => !s.isEmpty

/-- Everything `main` does that touches the outside world, in order. -/
inductive MainAction where
  | ddSetup : MainAction
  | loopEvent : Event → MainAction

/-- `main` after signal-handler registration: read the four environment
variables, validate each in order with `if not var: sys.exit(1)`, then set
up the Datadog client and enter the loop.  The result is the exit status
paired with the ordered actions performed: a failed validation exits with
status 1 having performed no action at all. -/
def main_run (pe : ProcEnv) (env : Nat → CycleEnv) (fuel : Nat) :
    Nat × List MainAction :=
  if !truthy pe.openweather_api_key then (1, [])
  else if !truthy pe.datadog_api_key then (1, [])
  else if !truthy pe.datadog_app_key then (1, [])
  else if !truthy pe.zip_code then (1, [])
  else (0, .ddSetup :: (mainLoop env fuel 0).map .loopEvent)

/-! ## Theorems -/

theorem get_weather_data_ok_of (status : Nat) (data m t h : Json)
    (hs : status < 400)
    (hm : data.index "main" = .ok m)
    (ht : m.index "temp" = .ok t)
    (hh : m.index "humidity" = .ok h) :
    get_weather_data (.response status (some data)) = .ok (some ⟨t, h⟩) := by
  simp [get_weather_data, get_weather_try, raise_for_status, Nat.not_le.mpr hs,
    Bind.bind, Except.bind, hm, ht, hh]

/-- C1: for a successful provider response (status below 400, valid JSON
body) whose body has `main.temp = 21.5` and `main.humidity = 63`,
`get_weather_data` returns the reading `{temperature: 21.5, humidity: 63}`. -/
theorem C1_success_yields_reading (status : Nat) (data m : Json)
    (hs : status < 400)
    (hm : data.index "main" = .ok m)
    (ht : m.index "temp" = .ok (.num 21.5))
    (hh : m.index "humidity" = .ok (.num 63)) :
    get_weather_data (.response status (some data)) =
      .ok (some ⟨.num 21.5, .num 63⟩) :=
  get_weather_data_ok_of status data m (.num 21.5) (.num 63) hs hm ht hh

theorem C1_success_yields_reading_witness :
    get_weather_data (.response 200 (some (.obj
      [("main", .obj [("temp", .num 21.5), ("humidity", .num 63)])]))) =
      .ok (some ⟨.num 21.5, .num 63⟩) :=
  C1_success_yields_reading 200
    (.obj [("main", .obj [("temp", .num 21.5), ("humidity", .num 63)])])
    (.obj [("temp", .num 21.5), ("humidity", .num 63)])
    (by decide) rfl rfl rfl

/-- C10: `get_weather_data` performs no type validation on the extracted
fields: whenever `main.temp` and `main.humidity` are present, whatever
JSON values `t` and `h` they hold (a string included), the returned
reading carries exactly those raw values. -/
theorem C10_no_type_validation (status : Nat) (data m t h : Json)
    (hs : status < 400)
    (hm : data.index "main" = .ok m)
    (ht : m.index "temp" = .ok t)
    (hh : m.index "humidity" = .ok h) :
    get_weather_data (.response status (some data)) = .ok (some ⟨t, h⟩) :=
  get_weather_data_ok_of status data m t h hs hm ht hh

theorem C10_no_type_validation_witness :
    get_weather_data (.response 200 (some (.obj
      [("main", .obj [("temp", .str "hot"), ("humidity", .arr [])])]))) =
      .ok (some ⟨.str "hot", .arr []⟩) :=
  C10_no_type_validation 200
    (.obj [("main", .obj [("temp", .str "hot"), ("humidity", .arr [])])])
    (.obj [("temp", .str "hot"), ("humidity", .arr [])])
    (.str "hot") (.arr []) (by decide) rfl rfl rfl

/-- C2: an HTTP response with status ≥ 400 makes `get_weather_data`
return `None` whatever the body; and a JSON-object body in which the path
`main.humidity` (or `main.temp`) is missing — `main` absent, or `main` an
object lacking `temp` or lacking `humidity` — also returns `None`, never
a reading and never a partial reading. -/
theorem C2_fetch_error_paths :
    (∀ (status : Nat) (body : Option Json), 400 ≤ status →
      get_weather_data (.response status body) = .ok none) ∧
    (∀ (status : Nat) (fields : List (String × Json)), status < 400 →
      lookupField fields "main" = none →
      get_weather_data (.response status (some (.obj fields))) = .ok none) ∧
    (∀ (status : Nat) (fields mfields : List (String × Json)), status < 400 →
      lookupField fields "main" = some (.obj mfields) →
      (lookupField mfields "temp" = none ∨ lookupField mfields "humidity" = none) →
      get_weather_data (.response status (some (.obj fields))) = .ok none) := by
  refine ⟨?_, ?_, ?_⟩
  · intro status body h
    simp [get_weather_data, get_weather_try, raise_for_status, h,
      Bind.bind, Except.bind]
  · intro status fields hs hmain
    simp [get_weather_data, get_weather_try, raise_for_status,
      Nat.not_le.mpr hs, Bind.bind, Except.bind, Json.index, hmain]
  · intro status fields mfields hs hmain hmiss
    rcases hmiss with htemp | hhum
    · simp [get_weather_data, get_weather_try, raise_for_status,
        Nat.not_le.mpr hs, Bind.bind, Except.bind, Json.index, hmain, htemp]
    · cases htv : lookupField mfields "temp" with
      | none =>
          simp [get_weather_data, get_weather_try, raise_for_status,
            Nat.not_le.mpr hs, Bind.bind, Except.bind, Json.index, hmain, htv]
      | some v =>
          cases v <;>
            simp [get_weather_data, get_weather_try, raise_for_status,
              Nat.not_le.mpr hs, Bind.bind, Except.bind, Json.index,
              hmain, htv, hhum]

theorem C2_fetch_error_paths_witness :
    get_weather_data (.response 503 (some (.obj
      [("main", .obj [("temp", .num 21.5), ("humidity", .num 63)])]))) = .ok none ∧
    get_weather_data (.response 200 (some (.obj [("cod", .num 200)]))) = .ok none ∧
    get_weather_data (.response 200 (some (.obj
      [("main", .obj [("temp", .num 21.5)])]))) = .ok none :=
  ⟨C2_fetch_error_paths.1 503 _ (by decide),
   C2_fetch_error_paths.2.1 200 [("cod", .num 200)] (by decide) rfl,
   C2_fetch_error_paths.2.2 200 [("main", .obj [("temp", .num 21.5)])]
     [("temp", .num 21.5)] (by decide) rfl (Or.inr rfl)⟩

/-- C4 counterexample: a body whose `main` field is present but is a
number, not an object.  `data["main"]["temp"]` then raises `TypeError`,
which neither `except` clause catches, so the exception escapes
`get_weather_data` instead of the function returning `None`. -/
theorem C4_uncaught_typeerror_counterexample :
    get_weather_data (.response 200 (some (.obj [("main", .num 5)]))) =
      .error .typeErr ∧
    get_weather_data (.response 200 (some (.obj [("main", .num 5)]))) ≠
      .ok none :=
  ⟨rfl, fun h => Except.noConfusion h⟩

/-- C4 amended: `get_weather_data` never lets a `RequestException` or a
`KeyError` escape — on every input it either returns `None`, returns a
reading, or raises `TypeError`; the `TypeError` path (subscripting a
non-dict `main` with a string key) is the one failure that is not caught
inside the function. -/
theorem C4_amended_exception_boundary (resp : HttpResult) :
    get_weather_data resp = .ok none ∨
    (∃ r, get_weather_data resp = .ok (some r)) ∨
    get_weather_data resp = .error .typeErr := by
  cases h : get_weather_try resp with
  | ok r => exact Or.inr (Or.inl ⟨r, by simp [get_weather_data, h]⟩)
  | error e =>
      cases e with
      | requestExc => exact Or.inl (by simp [get_weather_data, h])
      | keyErr k => exact Or.inl (by simp [get_weather_data, h])
      | typeErr => exact Or.inr (Or.inr (by simp [get_weather_data, h]))

/-- C3 counterexample: with the first `api.Metric.send` raising, the call
trace of `submit_datadog_metrics` holds only the temperature send — the
humidity submission is never attempted, because the exception jumps to
the single `except` handler that wraps both sends. -/
theorem C3_first_failure_counterexample :
    submit_datadog_metrics (.num 20) (.num 50) ⟨fun _ => 1000, fun _ => false⟩ =
      [⟨"environment.temperature.outside", [(1000, .num 20)], "gauge"⟩] := rfl

/-- C3 amended: both sends sit in one `try` block, so a failure of the
first (temperature) submission skips the second (humidity) submission
entirely; only when the first send returns normally is the humidity send
attempted (and a failure of the second still leaves the first made, with
no rollback). -/
theorem C3_amended_first_failure_skips_second (temperature humidity : Json)
    (env : DDEnv) :
    (env.sendOk 0 = false →
      submit_datadog_metrics temperature humidity env =
        [⟨"environment.temperature.outside",
          [(env.timeAt 0, temperature)], "gauge"⟩]) ∧
    (env.sendOk 0 = true →
      submit_datadog_metrics temperature humidity env =
        [⟨"environment.temperature.outside",
          [(env.timeAt 0, temperature)], "gauge"⟩,
         ⟨"environment.humidity.outside",
          [(env.timeAt 1, humidity)], "gauge"⟩]) := by
  constructor <;> intro h <;> simp [submit_datadog_metrics, h]

theorem C3_amended_first_failure_skips_second_witness :
    submit_datadog_metrics (.num 7) (.num 8) ⟨fun _ => 555, fun _ => false⟩ =
      [⟨"environment.temperature.outside", [(555, .num 7)], "gauge"⟩] :=
  (C3_amended_first_failure_skips_second (.num 7) (.num 8)
    ⟨fun _ => 555, fun _ => false⟩).1 rfl

/-- C5: given a reading, when the temperature send returns normally the
publisher issues exactly two gauge submissions, named
`environment.temperature.outside` and `environment.humidity.outside`,
each carrying one point whose timestamp is the integer-seconds clock
value read at that send and whose value is the corresponding reading
field. -/
theorem C5_two_gauge_submissions (temperature humidity : Json) (env : DDEnv)
    (h : env.sendOk 0 = true) :
    submit_datadog_metrics temperature humidity env =
      [⟨"environment.temperature.outside",
        [(env.timeAt 0, temperature)], "gauge"⟩,
       ⟨"environment.humidity.outside",
        [(env.timeAt 1, humidity)], "gauge"⟩] := by
  simp [submit_datadog_metrics, h]

theorem C5_two_gauge_submissions_witness :
    submit_datadog_metrics (.num 21.5) (.num 63) ⟨fun n => 2000 + n, fun _ => true⟩ =
      [⟨"environment.temperature.outside", [(2000 + 0, .num 21.5)], "gauge"⟩,
       ⟨"environment.humidity.outside", [(2000 + 1, .num 63)], "gauge"⟩] :=
  C5_two_gauge_submissions (.num 21.5) (.num 63)
    ⟨fun n => 2000 + n, fun _ => true⟩ rfl

theorem sleepLoopGo_all_false (f : Nat → Bool) (hf : ∀ i, f i = false) :
    ∀ (fuel s : Nat), sleepLoopGo f fuel s = s + fuel := by
  intro fuel
  induction fuel with
  | zero => intro s; simp [sleepLoopGo]
  | succ n ih =>
      intro s
      have hstep : sleepLoopGo f (n + 1) s =
          if f s then s else sleepLoopGo f n (s + 1) := rfl
      rw [hstep, hf s, if_neg (by simp), ih (s + 1)]
      omega

theorem sleepLoopGo_threshold (f : Nat → Bool) (t : Nat)
    (hf : ∀ i, f i = true ↔ t ≤ i) :
    ∀ (fuel s : Nat),
      sleepLoopGo f fuel s = if t ≤ s then s else min t (s + fuel) := by
  intro fuel
  induction fuel with
  | zero =>
      intro s
      simp only [sleepLoopGo]
      split <;> omega
  | succ n ih =>
      intro s
      simp only [sleepLoopGo]
      cases hfs : f s with
      | true =>
          have hts : t ≤ s := (hf s).mp hfs
          simp [hts]
      | false =>
          have hts : ¬ t ≤ s := fun hle => by
            rw [(hf s).mpr hle] at hfs
            exact Bool.noConfusion hfs
          rw [if_neg (by simp), ih (s + 1)]
          split <;> omega

/-- C6: the inter-cycle wait is a fixed 300-second interval made of
one-second sleep segments, the shutdown flag checked before each segment:
when the flag is never set the wait sleeps the full 300 seconds, and when
the flag flips from false at check `j` to true at check `j + 1` (set
during segment `j`, and sticky), the wait performs exactly
`min (j + 1) 300` one-second sleeps — at most one further second elapses
after the flag is set before the loop exits. -/
theorem C6_interruptible_wait :
    (∀ f : Nat → Bool, (∀ i, f i = false) → sleepSeconds f = 300) ∧
    (∀ (f : Nat → Bool) (j : Nat),
      (∀ a b, a ≤ b → f a = true → f b = true) →
      f j = false → f (j + 1) = true →
      sleepSeconds f = min (j + 1) 300) := by
  constructor
  · intro f hf
    rw [sleepSeconds, sleepLoopGo_all_false f hf 300 0]
  · intro f j hmono hj hj1
    have hf : ∀ i, f i = true ↔ j + 1 ≤ i := by
      intro i
      constructor
      · intro hi
        by_contra hlt
        have hij : i ≤ j := by omega
        rw [hmono i j hij hi] at hj
        exact Bool.noConfusion hj
      · intro hle
        exact hmono (j + 1) i hle hj1
    rw [sleepSeconds, sleepLoopGo_threshold f (j + 1) hf 300 0]
    split <;> omega

theorem C6_interruptible_wait_witness :
    sleepSeconds (fun _ => false) = 300 ∧
    sleepSeconds (fun i => decide (5 ≤ i)) = min 5 300 :=
  ⟨C6_interruptible_wait.1 (fun _ => false) (fun _ => rfl),
   C6_interruptible_wait.2 (fun i => decide (5 ≤ i)) 4
     (fun a b hab ha => by
       simp only [decide_eq_true_eq] at ha ⊢
       omega)
     (by decide) (by decide)⟩

/-- C7: while the shutdown flag is false at the top of a cycle, the loop
body runs exactly one fetch call, then exactly one publish call carrying
the returned reading when the fetch yielded one and a warn-and-skip when
it yielded `None`, then the guarded wait, and then continues with the
next cycle — the continuation is the same whether the fetch succeeded or
failed, so no fetch or publish failure ends the loop. -/
theorem C7_cycle_shape :
    (∀ (env : Nat → CycleEnv) (fuel i : Nat),
      (env i).shutdownAtTop = false →
      mainLoop env (fuel + 1) i =
        cycleEvents (env i).fetchResult ++ sleepEvents (env i)
          ++ mainLoop env fuel (i + 1)) ∧
    (∀ r, cycleEvents (some r) = [.fetchCall, .publishCall r]) ∧
    cycleEvents none = [.fetchCall, .warnSkip] := by
  refine ⟨?_, fun r => rfl, rfl⟩
  intro env fuel i h
  simp [mainLoop, h]

theorem C7_cycle_shape_witness :
    mainLoop (fun _ => ⟨false, none, false, fun _ => true⟩) 1 0 =
      cycleEvents none ++ sleepEvents ⟨false, none, false, fun _ => true⟩
        ++ mainLoop (fun _ => ⟨false, none, false, fun _ => true⟩) 0 1 :=
  C7_cycle_shape.1 (fun _ => ⟨false, none, false, fun _ => true⟩) 0 0 rfl

theorem main_run_exit_of_falsy (pe : ProcEnv) (env : Nat → CycleEnv)
    (fuel : Nat)
    (h : truthy pe.openweather_api_key = false ∨
      truthy pe.datadog_api_key = false ∨
      truthy pe.datadog_app_key = false ∨
      truthy pe.zip_code = false) :
    main_run pe env fuel = (1, []) := by
  unfold main_run
  rcases h with h | h | h | h <;> simp [h]

/-- C8: if any of the four required environment variables is unset, main
exits with status 1 having performed no outward action at all — no
Datadog client setup, no fetch, no publish. -/
theorem C8_missing_env_exits_1 (pe : ProcEnv) (env : Nat → CycleEnv)
    (fuel : Nat)
    (h : pe.openweather_api_key = none ∨ pe.datadog_api_key = none ∨
      pe.datadog_app_key = none ∨ pe.zip_code = none) :
    main_run pe env fuel = (1, []) := by
  apply main_run_exit_of_falsy
  rcases h with h | h | h | h
  · exact Or.inl (by rw [h]; rfl)
  · exact Or.inr (Or.inl (by rw [h]; rfl))
  · exact Or.inr (Or.inr (Or.inl (by rw [h]; rfl)))
  · exact Or.inr (Or.inr (Or.inr (by rw [h]; rfl)))

theorem C8_missing_env_exits_1_witness :
    main_run ⟨some "owk", some "ddk", some "dda", none⟩
      (fun _ => ⟨true, none, true, fun _ => true⟩) 5 = (1, []) :=
  C8_missing_env_exits_1 ⟨some "owk", some "ddk", some "dda", none⟩
    (fun _ => ⟨true, none, true, fun _ => true⟩) 5
    (Or.inr (Or.inr (Or.inr rfl)))

/-- C9: a required environment variable set to the empty string is
rejected exactly like an unset one — the `if not var` checks use Python
truthiness, so main exits with status 1 and performs no action. -/
theorem C9_empty_env_exits (pe : ProcEnv) (env : Nat → CycleEnv)
    (fuel : Nat)
    (h : pe.openweather_api_key = some "" ∨ pe.datadog_api_key = some "" ∨
      pe.datadog_app_key = some "" ∨ pe.zip_code = some "") :
    main_run pe env fuel = (1, []) := by
  apply main_run_exit_of_falsy
  rcases h with h | h | h | h
  · exact Or.inl (by rw [h]; rfl)
  · exact Or.inr (Or.inl (by rw [h]; rfl))
  · exact Or.inr (Or.inr (Or.inl (by rw [h]; rfl)))
  · exact Or.inr (Or.inr (Or.inr (by rw [h]; rfl)))

theorem C9_empty_env_exits_witness :
    main_run ⟨some "", some "ddk", some "dda", some "02139"⟩
      (fun _ => ⟨true, none, true, fun _ => true⟩) 5 = (1, []) :=
  C9_empty_env_exits ⟨some "", some "ddk", some "dda", some "02139"⟩
    (fun _ => ⟨true, none, true, fun _ => true⟩) 5 (Or.inl rfl)
